import Mathlib

/-!
Verification of the reactive data pipeline of `src/reporting/dashboard.py`.

The pipeline is embedded shallowly:

* a backing source (the `daily/table_*.csv` directory) is a `Store`, a
  function from ticker identifier to its raw `(date, close)` table; dates
  are modelled as `Nat`, closing values as `Int` (the concrete scenarios of the spec use integer values; the mean is still an exact `Rat`);
* `load_ticker` builds the per-ticker frame `{ticker: close, ticker_returns:
  close.diff()}`; `diff` leaves the first position undefined (`none`),
  modelling pandas `NaN`;
* `get_data` is `pd.concat([df1, df2], axis=1)` followed by `dropna()`:
  the rows are indexed by the sorted union of the two date indexes and a row
  survives only when all four columns are defined;
* the two `@lru_cache()` decorators are modelled as explicit association
  lists threaded through the calls (`load_ticker_cached`,
  `get_data_cached`); the default `maxsize=128` never evicts for the
  5-identifier universe (at most 5 series / 20 ordered pairs), so the model
  is an unbounded memo table; the returned `Bool` records whether the call
  was a miss (i.e. whether the underlying computation ran);
* the bokeh callbacks `ticker1_change`, `ticker2_change`, `update`,
  `selection_change` become transition functions on `DashState`, the record
  of widget state (`ticker1.value`, `ticker2.value`, their `options`,
  `source.selected.indices`, `source.data`, `source_static.data`,
  `stats.text`, the three figure titles) plus the builder cache;
* `data.iloc[selected, :]` raises `IndexError` when any positional indexer
  is out of bounds; `iloc` returns `none` in that case, and
  `selection_change` returns a `Bool` that is `false` when the callback
  aborted on that exception (the mutations made before the raise — the new
  selection indices and the builder cache — persist, as in Python).
-/

/-- A backing source: every identifier names a raw table of
`(date, close)` pairs, the model of `table_<ticker>.csv`. -/
def Store : Type := String → List (Nat × Int)

/-- `nix(val, lst)` from the source: drop every occurrence of `val`. -/
def nix (val : String) (lst : List String) : List String :=
  lst.filter (fun x => x ≠ val)

/-- The closed identifier universe `DEFAULT_TICKERS`. -/
def DEFAULT_TICKERS : List String := ["AAPL", "GOOG", "INTC", "BRCM", "YHOO"]

/-- `close.diff()`: each row carries `some (v - previous v)`, the first row
carries `none` (pandas `NaN`). The accumulator is the previous value. -/
def with_returns : Option Int → List (Nat × Int) → List (Nat × Int × Option Int)
  | _, [] => []
  | prev, (d, v) :: rest => (d, v, prev.map (fun p => v - p)) :: with_returns (some v) rest

/-- `load_ticker(ticker)` without its `@lru_cache()`: read the ticker's raw
table from the backing source and return the frame
`pd.DataFrame({ticker: data.c, ticker+'_returns': data.c.diff()})`,
still indexed by date. -/
def load_ticker (store : Store) (ticker : String) : List (Nat × Int × Option Int) :=
  with_returns none (store ticker)

/-- Association lookup, the model of aligning on a date index /
looking a key up in a memo table. -/
def assoc_find {α β : Type} [DecidableEq α] (k : α) : List (α × β) → Option β
  | [] => none
  | (a, b) :: rest => if a = k then some b else assoc_find k rest

/-- One joined row of the pair dataset: the four published columns
`t1`, `t2`, `t1_returns`, `t2_returns`, indexed by date. -/
structure Row where
  date : Nat
  t1 : Int
  t1_returns : Int
  t2 : Int
  t2_returns : Int
deriving DecidableEq

/-- The row of the joined dataset at date `d`, if `dropna()` keeps it:
defined exactly when both frames have the date and both returns are
defined there. -/
def rowAt (a b : List (Nat × Int × Option Int)) (d : Nat) : Option Row :=
  match assoc_find d a, assoc_find d b with
  | some (v1, some r1), some (v2, some r2) =>
      some { date := d, t1 := v1, t1_returns := r1, t2 := v2, t2_returns := r2 }
  | _, _ => none

/-- The index of `pd.concat([df1, df2], axis=1)`: the union of the two date
indexes; for monotonic date indexes (the data-model invariant: dates
strictly increasing) the union is sorted ascending. -/
def merged_dates (d1 d2 : List Nat) : List Nat :=
  List.insertionSort (fun a b => a ≤ b) (d1 ++ d2).dedup

/-- `get_data(t1, t2)` without its `@lru_cache()`: load both frames,
`concat` on the union of dates, `dropna()`. The result carries exactly the
four columns the dashboard publishes (`data['t1']`, `data['t2']`,
`data['t1_returns']`, `data['t2_returns']` are copies of the per-ticker
columns, so one copy of each value suffices). -/
def get_data (store : Store) (t1 t2 : String) : List Row :=
  let df1 := load_ticker store t1
  let df2 := load_ticker store t2
  (merged_dates ((store t1).map Prod.fst) ((store t2).map Prod.fst)).filterMap
    (rowAt df1 df2)

/-- The `@lru_cache()` on `load_ticker`, made explicit: an association list
keyed by the identifier. The `Bool` is `true` when the backing source was
read (a cache miss). -/
def load_ticker_cached (store : Store)
    (c : List (String × List (Nat × Int × Option Int))) (t : String) :
    List (Nat × Int × Option Int) × List (String × List (Nat × Int × Option Int)) × Bool :=
  match assoc_find t c with
  | some v => (v, c, false)
  | none => (load_ticker store t, (t, load_ticker store t) :: c, true)

/-- Process a list of `load_ticker` requests through the cache, recording
for each request whether it read the backing source. -/
def run_loads (store : Store) (c : List (String × List (Nat × Int × Option Int))) :
    List String → List (String × Bool) × List (String × List (Nat × Int × Option Int))
  | [] => ([], c)
  | t :: ts =>
      let r := load_ticker_cached store c t
      let rest := run_loads store r.2.1 ts
      ((t, r.2.2) :: rest.1, rest.2)

/-- How many requests in a trace read the backing source for identifier `t`. -/
def reads_of (t : String) (tr : List (String × Bool)) : Nat :=
  (tr.filter (fun p => p.1 = t && p.2)).length

/-- The `@lru_cache()` on `get_data`, made explicit. `functools.lru_cache`
keys on the argument tuple, so the key is the ORDERED pair `(t1, t2)`.
The `Bool` is `true` when the dataset was (re)computed (a cache miss). -/
def get_data_cached (store : Store) (c : List ((String × String) × List Row))
    (t1 t2 : String) :
    List Row × List ((String × String) × List Row) × Bool :=
  match assoc_find (t1, t2) c with
  | some d => (d, c, false)
  | none => (get_data store t1 t2, ((t1, t2), get_data store t1 t2) :: c, true)

/-- pandas positional indexing `data.iloc[selected, :]` with a list
indexer: raises `IndexError` (here: `none`) when any position is out of
bounds, otherwise returns the rows at the given positions, in the order
given. -/
def iloc (rows : List Row) (idxs : List Nat) : Option (List Row) :=
  if idxs.all (fun i => i < rows.length) then
    some (idxs.filterMap (fun i => rows.get? i))
  else none

/-- The selection filter of `selection_change`:
`if selected: data = data.iloc[selected, :]` — an empty selection leaves
the full dataset, a non-empty one goes through `iloc`. -/
def apply_selection (rows : List Row) (sel : List Nat) : Option (List Row) :=
  match sel with
  | [] => some rows
  | _ => iloc rows sel

/-- The per-column part of `describe()`: count, mean, min, max (`none`
models the `NaN` that pandas reports on an empty column; `std` and the
quartiles, like these, are functions of the column's values alone). -/
structure ColStats where
  count : Nat
  mean : Option Rat
  minv : Option Int
  maxv : Option Int
deriving DecidableEq

/-- Minimum of a column, `none` on the empty column. -/
def col_min : List Int → Option Int
  | [] => none
  | x :: xs =>
      some (match col_min xs with
            | none => x
            | some m => min x m)

/-- Maximum of a column, `none` on the empty column. -/
def col_max : List Int → Option Int
  | [] => none
  | x :: xs =>
      some (match col_max xs with
            | none => x
            | some m => max x m)

/-- `describe()` of one column. -/
def describeCol (xs : List Int) : ColStats :=
  { count := xs.length
  , mean := if xs.length = 0 then none else some ((xs.sum : Rat) / (xs.length : Rat))
  , minv := col_min xs
  , maxv := col_max xs }

/-- The statistics report `update_stats` publishes: `describe()` of the four
columns `[t1, t2, t1_returns, t2_returns]` of the (possibly filtered)
dataset. -/
structure Statistics where
  s_t1 : ColStats
  s_t2 : ColStats
  s_t1_returns : ColStats
  s_t2_returns : ColStats
deriving DecidableEq

/-- `update_stats(data, t1, t2)`: format `describe()` of the four columns
into `stats.text`. -/
def describe (rows : List Row) : Statistics :=
  { s_t1 := describeCol (rows.map Row.t1)
  , s_t2 := describeCol (rows.map Row.t2)
  , s_t1_returns := describeCol (rows.map Row.t1_returns)
  , s_t2_returns := describeCol (rows.map Row.t2_returns) }

/-- The orchestrator state: the widget values and options, the current
selection indices, the published data sources, the statistics text, the
three figure titles, and the (explicit) `get_data` memo table. -/
structure DashState where
  ticker1 : String
  ticker2 : String
  ticker1_options : List String
  ticker2_options : List String
  selection : List Nat
  source_data : List Row
  source_static_data : List Row
  stats_text : Statistics
  corr_title : String
  ts1_title : String
  ts2_title : String
  cache : List ((String × String) × List Row)
deriving DecidableEq

/-- `update()`: rebuild the dataset for the current ticker pair, publish it
to `source` and `source_static`, recompute the statistics over the FULL
dataset, and set the three titles. The `selected` parameter of the Python
function is ignored by its body; in particular `source.selected.indices`
is never touched here. -/
def update (store : Store) (s : DashState) : DashState :=
  let r := get_data_cached store s.cache s.ticker1 s.ticker2
  { s with
    source_data := r.1
    source_static_data := r.1
    stats_text := describe r.1
    corr_title := s.ticker1 ++ " returns vs. " ++ s.ticker2 ++ " returns"
    ts1_title := s.ticker1
    ts2_title := s.ticker2
    cache := r.2.1 }

/-- `ticker1_change(attrname, old, new)`: bokeh has already written the new
value into `ticker1.value` when the callback runs; the callback restricts
`ticker2.options` to exclude the new value and calls `update()`. -/
def ticker1_change (store : Store) (s : DashState) (new : String) : DashState :=
  update store { s with ticker1 := new, ticker2_options := nix new DEFAULT_TICKERS }

/-- `ticker2_change(attrname, old, new)`: symmetric to `ticker1_change`. -/
def ticker2_change (store : Store) (s : DashState) (new : String) : DashState :=
  update store { s with ticker2 := new, ticker1_options := nix new DEFAULT_TICKERS }

/-- `selection_change(attrname, old, new)`: bokeh has already written the
new indices into `source.selected.indices`; the callback fetches the pair
dataset (through the `get_data` cache), filters it by the selection, and
recomputes the statistics. The returned `Bool` is `false` when
`data.iloc[selected, :]` raised `IndexError`: the callback then aborts with
`stats.text` untouched, but the selection indices and the builder cache
keep the values written before the raise. -/
def selection_change (store : Store) (s : DashState) (new : List Nat) :
    DashState × Bool :=
  let r := get_data_cached store s.cache s.ticker1 s.ticker2
  let s1 := { s with selection := new, cache := r.2.1 }
  match apply_selection r.1 new with
  | some d => ({ s1 with stats_text := describe d }, true)
  | none => (s1, false)

/-- Swap the two series' roles in a joined row (`t1 ↔ t2`). -/
def swapRow (r : Row) : Row :=
  { date := r.date, t1 := r.t2, t1_returns := r.t2_returns
  , t2 := r.t1, t2_returns := r.t1_returns }

/-- A builder cache is consistent with the backing source when every entry
stores exactly the dataset `get_data` computes for its key (true of every
cache reachable through this API, since entries are only ever inserted by
`get_data_cached` on a miss). -/
def CacheConsistent (store : Store) (c : List ((String × String) × List Row)) : Prop :=
  ∀ p d, assoc_find p c = some d → d = get_data store p.1 p.2

/-- A two-ticker demo store: the concrete series of the spec's test
scenario, `A = {(d1,10), (d2,12), (d3,11)}` and `B = {(d1,20), (d2,19),
(d3,22)}`, plus a series `C` sharing no dates with `A`. -/
def demo_store : Store := fun t =>
  if t = "A" then [(1, 10), (2, 12), (3, 11)]
  else if t = "B" then [(1, 20), (2, 19), (3, 22)]
  else if t = "C" then [(7, 5), (8, 6)]
  else []

/-- A concrete state whose builder cache already holds the dataset
published for its current ticker pair, as it does right after an
identifier change. -/
def demo_cached_state : DashState :=
  { ticker1 := "A"
  , ticker2 := "B"
  , ticker1_options := nix "B" DEFAULT_TICKERS
  , ticker2_options := nix "A" DEFAULT_TICKERS
  , selection := []
  , source_data := get_data demo_store "A" "B"
  , source_static_data := get_data demo_store "A" "B"
  , stats_text := describe (get_data demo_store "A" "B")
  , corr_title := "A returns vs. B returns"
  , ts1_title := "A"
  , ts2_title := "B"
  , cache := [(("A", "B"), get_data demo_store "A" "B")] }

/-- A concrete starting state over `demo_store`, with an empty cache. -/
def init_state : DashState :=
  { ticker1 := "A"
  , ticker2 := "B"
  , ticker1_options := nix "B" DEFAULT_TICKERS
  , ticker2_options := nix "A" DEFAULT_TICKERS
  , selection := []
  , source_data := []
  , source_static_data := []
  , stats_text := describe []
  , corr_title := ""
  , ts1_title := ""
  , ts2_title := ""
  , cache := [] }

/-! ## Helper lemmas -/

/-- A successful association lookup means the key occurs among the keys. -/
theorem assoc_find_some_mem {α β : Type} [DecidableEq α] {k : α} {l : List (α × β)} {v : β}
    (h : assoc_find k l = some v) : k ∈ l.map Prod.fst := by
  induction l with
  | nil => exact absurd h (by simp [assoc_find])
  | cons p rest ih =>
    obtain ⟨a, b⟩ := p
    by_cases hak : a = k
    · subst hak; simp
    · simp only [assoc_find, if_neg hak] at h
      simpa using Or.inr (ih h)

/-- `diff` keeps the date index of the raw table. -/
theorem map_fst_with_returns (prev : Option Int) (tbl : List (Nat × Int)) :
    (with_returns prev tbl).map Prod.fst = tbl.map Prod.fst := by
  induction tbl generalizing prev with
  | nil => rfl
  | cons p rest ih =>
    obtain ⟨d, v⟩ := p
    simp [with_returns, ih]

/-- The sorted union of two date indexes does not depend on the order of
its two arguments. -/
theorem merged_dates_comm (d1 d2 : List Nat) : merged_dates d1 d2 = merged_dates d2 d1 := by
  unfold merged_dates
  apply List.eq_of_perm_of_sorted (r := fun a b : Nat => a ≤ b)
  · have hmid : List.Perm (d1 ++ d2).dedup (d2 ++ d1).dedup := by
      refine (List.perm_ext_iff_of_nodup (List.nodup_dedup _) (List.nodup_dedup _)).mpr ?_
      intro a
      simp [List.mem_dedup, List.mem_append, or_comm]
    exact ((List.perm_insertionSort _ _).trans hmid).trans (List.perm_insertionSort _ _).symm
  · exact List.sorted_insertionSort _ _
  · exact List.sorted_insertionSort _ _

/-- Swapping the two frames swaps the roles in the joined row. -/
theorem rowAt_swap (a b : List (Nat × Int × Option Int)) (d : Nat) :
    rowAt b a d = Option.map swapRow (rowAt a b d) := by
  unfold rowAt
  cases h1 : assoc_find d a with
  | none =>
    cases h2 : assoc_find d b with
    | none => rfl
    | some p => obtain ⟨v, r⟩ := p; cases r <;> rfl
  | some p =>
    obtain ⟨v1, r1⟩ := p
    cases h2 : assoc_find d b with
    | none => cases r1 <;> rfl
    | some q => obtain ⟨v2, r2⟩ := q; cases r1 <;> cases r2 <;> rfl

/-- After a `get_data_cached` call, the cache maps the requested ordered
pair to exactly the dataset the call returned. -/
theorem get_data_cached_find_self (store : Store) (c : List ((String × String) × List Row))
    (t1 t2 : String) :
    assoc_find (t1, t2) (get_data_cached store c t1 t2).2.1
      = some (get_data_cached store c t1 t2).1 := by
  cases hc : assoc_find (t1, t2) c with
  | some d => simp [get_data_cached, hc]
  | none => simp [get_data_cached, hc, assoc_find]

/-- Fetching through a consistent cache returns exactly `get_data`. -/
theorem get_data_cached_consistent (store : Store) (c : List ((String × String) × List Row))
    (t1 t2 : String) (h : CacheConsistent store c) :
    (get_data_cached store c t1 t2).1 = get_data store t1 t2 := by
  cases hc : assoc_find (t1, t2) c with
  | none => simp [get_data_cached, hc]
  | some d =>
    simp only [get_data_cached, hc]
    exact h (t1, t2) d hc

/-- Join symmetry of the data: swapping the two tickers swaps the column
roles row for row. -/
theorem get_data_swap (store : Store) (t1 t2 : String) :
    get_data store t2 t1 = (get_data store t1 t2).map swapRow := by
  simp only [get_data]
  rw [merged_dates_comm]
  have hfun : rowAt (load_ticker store t2) (load_ticker store t1)
      = fun d => Option.map swapRow (rowAt (load_ticker store t1) (load_ticker store t2) d) :=
    funext (rowAt_swap (load_ticker store t1) (load_ticker store t2))
  rw [hfun, List.map_filterMap]

/-- Unfolding one step of `run_loads`. -/
theorem run_loads_cons (store : Store) (c : List (String × List (Nat × Int × Option Int)))
    (r : String) (rs : List String) :
    run_loads store c (r :: rs)
      = ((r, (load_ticker_cached store c r).2.2)
            :: (run_loads store (load_ticker_cached store c r).2.1 rs).1,
         (run_loads store (load_ticker_cached store c r).2.1 rs).2) := rfl

/-- Counting the reads of one identifier in an extended trace. -/
theorem reads_of_cons (t r : String) (b : Bool) (tr : List (String × Bool)) :
    reads_of t ((r, b) :: tr)
      = if r = t ∧ b = true then reads_of t tr + 1 else reads_of t tr := by
  by_cases hrt : r = t <;> cases b <;> simp [reads_of, List.filter_cons, hrt]

/-- A `load_ticker_cached` call never evicts: an identifier that was cached
stays cached. -/
theorem load_ticker_cached_preserves {store : Store}
    {c : List (String × List (Nat × Int × Option Int))} {t : String} (r : String)
    (h : (assoc_find t c).isSome) :
    (assoc_find t (load_ticker_cached store c r).2.1).isSome := by
  cases hr : assoc_find r c with
  | some v => simpa [load_ticker_cached, hr] using h
  | none =>
    by_cases hrt : r = t
    · subst hrt; rw [hr] at h; simp at h
    · simpa [load_ticker_cached, hr, assoc_find, hrt] using h

/-- Once an identifier is cached, no later request for it reads the
backing source. -/
theorem run_loads_cached_no_reads (store : Store)
    (c : List (String × List (Nat × Int × Option Int))) (reqs : List String) (t : String)
    (h : (assoc_find t c).isSome) :
    reads_of t (run_loads store c reqs).1 = 0 := by
  induction reqs generalizing c with
  | nil => rfl
  | cons r rs ih =>
    rw [run_loads_cons, reads_of_cons]
    by_cases hrt : r = t
    · subst hrt
      obtain ⟨v, hv⟩ := Option.isSome_iff_exists.mp h
      have hl : load_ticker_cached store c r = (v, c, false) := by
        simp [load_ticker_cached, hv]
      simp [hl]
      exact ih c h
    · have hpres := @load_ticker_cached_preserves store c t r h
      simp only [hrt, false_and, if_false]
      exact ih _ hpres

/-- Starting from any cache, a request trace reads the backing source at
most once for any fixed identifier. -/
theorem run_loads_reads_at_most_one (store : Store)
    (c : List (String × List (Nat × Int × Option Int))) (reqs : List String) (t : String) :
    reads_of t (run_loads store c reqs).1 ≤ 1 := by
  induction reqs generalizing c with
  | nil => exact Nat.zero_le 1
  | cons r rs ih =>
    rw [run_loads_cons, reads_of_cons]
    by_cases hrt : r = t
    · subst hrt
      cases hc : assoc_find r c with
      | some v =>
        have hl : load_ticker_cached store c r = (v, c, false) := by
          simp [load_ticker_cached, hc]
        simp [hl]
        exact ih c
      | none =>
        have hl : load_ticker_cached store c r
            = (load_ticker store r, (r, load_ticker store r) :: c, true) := by
          simp [load_ticker_cached, hc]
        have h0 : reads_of r (run_loads store ((r, load_ticker store r) :: c) rs).1 = 0 :=
          run_loads_cached_no_reads store _ rs r (by simp [assoc_find])
        simp [hl, h0]
    · simp only [hrt, false_and, if_false]
      exact ih _

/-! ## Claim theorems -/

/-- C9: for the concrete series `A = {(d1,10), (d2,12), (d3,11)}` and
`B = {(d1,20), (d2,19), (d3,22)}`, the builder drops d1 (undefined returns)
and yields exactly the rows d2 (`A=12, B=19, Aret=2, Bret=-1`) and d3
(`A=11, B=22, Aret=-1, Bret=3`); the `count` statistic over the full
dataset is 2 in every column. -/
theorem concrete_build_scenario :
    get_data demo_store "A" "B" =
      [{ date := 2, t1 := 12, t1_returns := 2, t2 := 19, t2_returns := -1 },
       { date := 3, t1 := 11, t1_returns := -1, t2 := 22, t2_returns := 3 }]
    ∧ (describe (get_data demo_store "A" "B")).s_t1.count = 2
    ∧ (describe (get_data demo_store "A" "B")).s_t2.count = 2
    ∧ (describe (get_data demo_store "A" "B")).s_t1_returns.count = 2
    ∧ (describe (get_data demo_store "A" "B")).s_t2_returns.count = 2 := by
  decide

/-- C5: applying the selection filter with the empty selection yields the
full dataset itself (same rows, same order), and summarizing that view
equals summarizing the full dataset; through `selection_change`, an empty
selection publishes the statistics of the full current dataset and the
callback completes without error. -/
theorem empty_selection_passthrough (rows : List Row) :
    apply_selection rows [] = some rows
    ∧ (apply_selection rows []).map describe = some (describe rows)
    ∧ ∀ (store : Store) (s : DashState),
        (selection_change store s []).2 = true
        ∧ (selection_change store s []).1.stats_text
            = describe (get_data_cached store s.cache s.ticker1 s.ticker2).1 := by
  refine ⟨rfl, rfl, ?_⟩
  intro store s
  simp [selection_change, apply_selection]

/-- C8: after an `IdentifierChanged(slot, X)` event, the other slot's
allowed-identifier set equals the full identifier universe with `X`
removed, so `X` is excluded from the other slot's options. -/
theorem mutual_exclusion_options (store : Store) (s : DashState) (X : String) :
    ((ticker1_change store s X).ticker2_options = nix X DEFAULT_TICKERS
      ∧ ∀ y, y ∈ (ticker1_change store s X).ticker2_options
          ↔ (y ∈ DEFAULT_TICKERS ∧ y ≠ X))
    ∧ ((ticker2_change store s X).ticker1_options = nix X DEFAULT_TICKERS
      ∧ ∀ y, y ∈ (ticker2_change store s X).ticker1_options
          ↔ (y ∈ DEFAULT_TICKERS ∧ y ≠ X)) := by
  refine ⟨⟨?_, ?_⟩, ⟨?_, ?_⟩⟩ <;>
    simp [ticker1_change, ticker2_change, update, nix, List.mem_filter]

/-- C1, counterexample: on the two-row dataset of the demo store, the
selection `[0, 5]` contains a position (5) at or beyond the row count (2);
`data.iloc[selected, :]` raises `IndexError` (modelled as `none`) instead
of completing with a view over the in-range position 0 alone. -/
theorem selection_out_of_range_cex :
    apply_selection (get_data demo_store "A" "B") [0, 5] = none
    ∧ (get_data demo_store "A" "B").length = 2 := by
  decide

/-- C1, amended: a selection containing any row position at or beyond the
dataset's row count makes the selection filter FAIL (pandas `.iloc` raises
`IndexError` for out-of-bounds list indexers); the positions are not
ignored. The `selection_change` callback then aborts without updating the
statistics text. -/
theorem selection_out_of_range_fails (rows : List Row) (sel : List Nat)
    (h : ∃ i ∈ sel, rows.length ≤ i) :
    apply_selection rows sel = none
    ∧ ∀ (store : Store) (s : DashState),
        (get_data_cached store s.cache s.ticker1 s.ticker2).1 = rows →
          (selection_change store s sel).2 = false
          ∧ (selection_change store s sel).1.stats_text = s.stats_text := by
  obtain ⟨i, hi, hlen⟩ := h
  have hall : ¬ (sel.all (fun j => j < rows.length) = true) := by
    simp only [List.all_eq_true, decide_eq_true_eq]
    intro hforall
    exact absurd (hforall i hi) (Nat.not_lt.mpr hlen)
  have happly : apply_selection rows sel = none := by
    cases sel with
    | nil => exact absurd hi (List.not_mem_nil i)
    | cons a tl =>
      simp only [apply_selection, iloc]
      rw [if_neg hall]
  refine ⟨happly, ?_⟩
  intro store s hfetch
  constructor <;> simp [selection_change, hfetch, happly]

/-- C1, witness for the amended theorem at the demo store's two-row
dataset and the stale selection `[0, 5]`. -/
theorem selection_out_of_range_fails_witness :
    (∃ i ∈ [0, 5], (get_data demo_store "A" "B").length ≤ i)
    ∧ (selection_change demo_store init_state [0, 5]).2 = false
    ∧ (selection_change demo_store init_state [0, 5]).1.stats_text
        = init_state.stats_text :=
  ⟨by decide,
   (selection_out_of_range_fails (get_data demo_store "A" "B") [0, 5]
      (by decide)).2 demo_store init_state rfl⟩

/-- C2, counterexample: series `A` and `C` of the demo store share no
common dates, yet `get_data` completes normally and hands the caller the
zero-row dataset — there is no `EmptyJoin` failure path in the builder
(`get_data` is a total function into datasets; nothing is reported to the
caller). -/
theorem empty_join_no_error_cex :
    get_data demo_store "A" "C" = []
    ∧ (get_data_cached demo_store [] "A" "C").1 = []
    ∧ (describe (get_data demo_store "A" "C")).s_t1.count = 0 := by
  decide

/-- C2, amended: when the two series share no common dates the builder
returns the zero-row dataset silently (no error is raised to the caller),
and the downstream `count` statistic over it is 0 — matching the spec's
own §7/§8 degenerate-result description rather than §4.2's `EmptyJoin`
failure. -/
theorem empty_join_returns_zero_rows (store : Store) (t1 t2 : String)
    (h : ∀ p ∈ store t1, ∀ q ∈ store t2, p.1 ≠ q.1) :
    get_data store t1 t2 = []
    ∧ (describe (get_data store t1 t2)).s_t1.count = 0 := by
  have hmain : get_data store t1 t2 = [] := by
    simp only [get_data]
    rw [List.filterMap_eq_nil_iff]
    intro d _
    cases h1 : assoc_find d (load_ticker store t1) with
    | none => simp [rowAt, h1]
    | some p =>
      obtain ⟨v1, r1⟩ := p
      have hd1 : d ∈ (store t1).map Prod.fst := by
        have := assoc_find_some_mem h1
        rwa [load_ticker, map_fst_with_returns] at this
      cases h2 : assoc_find d (load_ticker store t2) with
      | none => simp [rowAt, h1, h2]
      | some q =>
        exfalso
        have hd2 : d ∈ (store t2).map Prod.fst := by
          have := assoc_find_some_mem h2
          rwa [load_ticker, map_fst_with_returns] at this
        obtain ⟨p1, hp1, hp1d⟩ := List.mem_map.mp hd1
        obtain ⟨q1, hq1, hq1d⟩ := List.mem_map.mp hd2
        exact h p1 hp1 q1 hq1 (hp1d.trans hq1d.symm)
  exact ⟨hmain, by rw [hmain]; rfl⟩

/-- C2, witness for the amended theorem: the demo store's series `A` and
`C` are date-disjoint, the built dataset is empty and its count is 0. -/
theorem empty_join_returns_zero_rows_witness :
    (∀ p ∈ demo_store "A", ∀ q ∈ demo_store "C", p.1 ≠ q.1)
    ∧ get_data demo_store "A" "C" = []
    ∧ (describe (get_data demo_store "A" "C")).s_t1.count = 0 :=
  ⟨by decide, empty_join_returns_zero_rows demo_store "A" "C" (by decide)⟩

/-- C3, counterexample: after `build("A","B")` fills the (empty) cache,
the cache has NO entry for the swapped key `("B","A")`, and the
swapped-order call `build("B","A")` is a cache miss that recomputes the
dataset — `functools.lru_cache` keys on the ordered argument tuple, not on
the unordered pair as the claim states. -/
theorem ordered_pair_cache_cex :
    assoc_find ("B", "A") ((get_data_cached demo_store [] "A" "B").2.1) = none
    ∧ (get_data_cached demo_store ((get_data_cached demo_store [] "A" "B").2.1) "B" "A").2.2
        = true := by
  decide

/-- C3, amended: `build(A,B)` and `build(B,A)` do produce datasets with
identical row count and identical date sequence whose level and return
columns are swapped (the join-symmetry part of the claim holds for every
store and every pair); however the builder's cache keys on the ORDERED
pair, so for distinct identifiers the swapped-order call does not hit the
cached entry and performs its own computation. -/
theorem build_swap_symmetry (store : Store) (t1 t2 : String) :
    get_data store t2 t1 = (get_data store t1 t2).map swapRow
    ∧ (get_data store t2 t1).length = (get_data store t1 t2).length
    ∧ (get_data store t2 t1).map Row.date = (get_data store t1 t2).map Row.date
    ∧ (t1 ≠ t2 →
        assoc_find (t2, t1) ((get_data_cached store [] t1 t2).2.1) = none
        ∧ (get_data_cached store ((get_data_cached store [] t1 t2).2.1) t2 t1).2.2
            = true) := by
  have hswap := get_data_swap store t1 t2
  refine ⟨hswap, by rw [hswap, List.length_map], ?_, ?_⟩
  · rw [hswap, List.map_map]
    have hdate : (Row.date ∘ swapRow) = Row.date := funext fun r => rfl
    rw [hdate]
  · intro hne
    have hfind : assoc_find (t2, t1) ((get_data_cached store [] t1 t2).2.1) = none := by
      have hne2 : ¬ ((t1, t2) = (t2, t1)) := by
        intro hcontra
        exact hne (congrArg Prod.fst hcontra)
      simp [get_data_cached, assoc_find, hne2]
    refine ⟨hfind, ?_⟩
    generalize hc : (get_data_cached store [] t1 t2).2.1 = c' at hfind ⊢
    simp [get_data_cached, hfind]

/-- C3, witness for the amended theorem at the demo store's distinct pair
`("A", "B")`. -/
theorem build_swap_symmetry_witness :
    ("A" : String) ≠ "B"
    ∧ get_data demo_store "B" "A" = (get_data demo_store "A" "B").map swapRow
    ∧ assoc_find ("B", "A") ((get_data_cached demo_store [] "A" "B").2.1) = none
    ∧ (get_data_cached demo_store ((get_data_cached demo_store [] "A" "B").2.1) "B" "A").2.2
        = true :=
  ⟨by decide,
   (build_swap_symmetry demo_store "A" "B").1,
   ((build_swap_symmetry demo_store "A" "B").2.2.2 (by decide)).1,
   ((build_swap_symmetry demo_store "A" "B").2.2.2 (by decide)).2⟩

/-- C4: `load_ticker`'s memoization — from the empty cache the first call
for an identifier reads the backing source and stores the result; a call
repeated on the resulting cache returns the identical cached value with no
further read; and over any request trace for the process lifetime, the
backing source is read at most once per identifier. -/
theorem series_store_memoization (store : Store) :
    (∀ t, load_ticker_cached store [] t
        = (load_ticker store t, [(t, load_ticker store t)], true))
    ∧ (∀ c t, load_ticker_cached store (load_ticker_cached store c t).2.1 t
        = ((load_ticker_cached store c t).1, (load_ticker_cached store c t).2.1, false))
    ∧ (∀ reqs t, reads_of t (run_loads store [] reqs).1 ≤ 1) := by
  refine ⟨fun t => rfl, ?_, fun reqs t => run_loads_reads_at_most_one store [] reqs t⟩
  intro c t
  cases hc : assoc_find t c with
  | some v => simp [load_ticker_cached, hc]
  | none => simp [load_ticker_cached, hc, assoc_find]

/-- C6, counterexample: an `IdentifierChanged` transition does NOT reset
the selection to the empty set — `update()` never touches
`source.selected.indices`, so a non-empty selection survives the rebuild
unchanged. -/
theorem identifier_change_keeps_selection_cex :
    (ticker1_change demo_store { init_state with selection := [0] } "C").selection = [0]
    ∧ ([0] : List Nat) ≠ [] := by
  constructor
  · rfl
  · simp

/-- C6, amended: after an `IdentifierChanged` event (either slot) the
dataset is rebuilt for the new identifier pair and the published
statistics equal the summary of the full (unfiltered) new dataset, but the
selection is left UNCHANGED by the transition rather than being reset to
empty (the code never clears `source.selected.indices`). -/
theorem identifier_change_rebuilds (store : Store) (s : DashState) (new : String)
    (h : CacheConsistent store s.cache) :
    ((ticker1_change store s new).source_data = get_data store new s.ticker2
      ∧ (ticker1_change store s new).source_static_data = get_data store new s.ticker2
      ∧ (ticker1_change store s new).stats_text = describe (get_data store new s.ticker2)
      ∧ (ticker1_change store s new).selection = s.selection)
    ∧ ((ticker2_change store s new).source_data = get_data store s.ticker1 new
      ∧ (ticker2_change store s new).source_static_data = get_data store s.ticker1 new
      ∧ (ticker2_change store s new).stats_text = describe (get_data store s.ticker1 new)
      ∧ (ticker2_change store s new).selection = s.selection) := by
  have h1 := get_data_cached_consistent store s.cache new s.ticker2 h
  have h2 := get_data_cached_consistent store s.cache s.ticker1 new h
  refine ⟨⟨?_, ?_, ?_, ?_⟩, ⟨?_, ?_, ?_, ?_⟩⟩ <;>
    simp [ticker1_change, ticker2_change, update, h1, h2]

/-- C6, witness for the amended theorem: `init_state`'s empty cache is
trivially consistent, and changing slot 1 to `"C"` rebuilds for the pair
`("C", "B")`, summarizes the full new dataset, and leaves the (empty)
selection as it was. -/
theorem identifier_change_rebuilds_witness :
    CacheConsistent demo_store init_state.cache
    ∧ (ticker1_change demo_store init_state "C").source_data
        = get_data demo_store "C" init_state.ticker2
    ∧ (ticker1_change demo_store init_state "C").stats_text
        = describe (get_data demo_store "C" init_state.ticker2)
    ∧ (ticker1_change demo_store init_state "C").selection = init_state.selection :=
  ⟨fun _ _ hf => Option.noConfusion hf,
   (identifier_change_rebuilds demo_store init_state "C"
      (fun _ _ hf => Option.noConfusion hf)).1.1,
   (identifier_change_rebuilds demo_store init_state "C"
      (fun _ _ hf => Option.noConfusion hf)).1.2.2.1,
   (identifier_change_rebuilds demo_store init_state "C"
      (fun _ _ hf => Option.noConfusion hf)).1.2.2.2⟩

/-- C7: a `SelectionChanged` transition recomputes only the statistics
output — the published dataset (`source.data` and `source_static.data`),
the current identifier pair, the option sets, and all three chart titles
are exactly the values held before the event, whether or not the filter
succeeded. -/
theorem selection_change_frame (store : Store) (s : DashState) (new : List Nat) :
    (selection_change store s new).1.source_data = s.source_data
    ∧ (selection_change store s new).1.source_static_data = s.source_static_data
    ∧ (selection_change store s new).1.ticker1 = s.ticker1
    ∧ (selection_change store s new).1.ticker2 = s.ticker2
    ∧ (selection_change store s new).1.ticker1_options = s.ticker1_options
    ∧ (selection_change store s new).1.ticker2_options = s.ticker2_options
    ∧ (selection_change store s new).1.corr_title = s.corr_title
    ∧ (selection_change store s new).1.ts1_title = s.ts1_title
    ∧ (selection_change store s new).1.ts2_title = s.ts2_title := by
  cases h : apply_selection (get_data_cached store s.cache s.ticker1 s.ticker2).1 new <;>
    simp [selection_change, h]

/-- C10: the pair-dataset builder is memoized on the ordered pair, so (i)
right after an `IdentifierChanged` transition (either slot) the builder
cache maps the current pair to exactly the published dataset, and (ii)
whenever that invariant holds, a `SelectionChanged` event re-fetches
precisely the published dataset — the statistics it publishes are computed
from `source_data`'s rows — and the invariant still holds afterwards. -/
theorem builder_cache_consistency (store : Store) (s : DashState) (new : String)
    (sel : List Nat)
    (hinv : assoc_find (s.ticker1, s.ticker2) s.cache = some s.source_data) :
    (assoc_find ((ticker1_change store s new).ticker1,
          (ticker1_change store s new).ticker2) (ticker1_change store s new).cache
        = some (ticker1_change store s new).source_data)
    ∧ (assoc_find ((ticker2_change store s new).ticker1,
          (ticker2_change store s new).ticker2) (ticker2_change store s new).cache
        = some (ticker2_change store s new).source_data)
    ∧ ((selection_change store s sel).1.stats_text
        = match apply_selection s.source_data sel with
          | some d => describe d
          | none => s.stats_text)
    ∧ (assoc_find ((selection_change store s sel).1.ticker1,
          (selection_change store s sel).1.ticker2) (selection_change store s sel).1.cache
        = some (selection_change store s sel).1.source_data) := by
  have hr : get_data_cached store s.cache s.ticker1 s.ticker2
      = (s.source_data, s.cache, false) := by
    simp [get_data_cached, hinv]
  refine ⟨?_, ?_, ?_, ?_⟩
  · simpa [ticker1_change, update] using
      get_data_cached_find_self store s.cache new s.ticker2
  · simpa [ticker2_change, update] using
      get_data_cached_find_self store s.cache s.ticker1 new
  · cases h : apply_selection s.source_data sel <;>
      simp [selection_change, hr, h]
  · cases h : apply_selection s.source_data sel <;>
      simp [selection_change, hr, h, hinv]

/-- C10, witness: `demo_cached_state` satisfies the invariant (its cache
holds the published dataset for the current pair `("A","B")`), and the
theorem applies at the in-range selection `[0]` and the slot-1 change to
`"C"`. -/
theorem builder_cache_consistency_witness :
    assoc_find (demo_cached_state.ticker1, demo_cached_state.ticker2)
        demo_cached_state.cache = some demo_cached_state.source_data
    ∧ ((selection_change demo_store demo_cached_state [0]).1.stats_text
        = match apply_selection demo_cached_state.source_data [0] with
          | some d => describe d
          | none => demo_cached_state.stats_text)
    ∧ (assoc_find ((selection_change demo_store demo_cached_state [0]).1.ticker1,
          (selection_change demo_store demo_cached_state [0]).1.ticker2)
          (selection_change demo_store demo_cached_state [0]).1.cache
        = some (selection_change demo_store demo_cached_state [0]).1.source_data) :=
  ⟨rfl,
   (builder_cache_consistency demo_store demo_cached_state "C" [0] rfl).2.2.1,
   (builder_cache_consistency demo_store demo_cached_state "C" [0] rfl).2.2.2⟩
